import Mathlib

/-!
# Verification of the EffortlessSmartRewards engine

Shallow embedding of `backend/app/services.py` (enrichment, reward
matching, savings calculation), `backend/app/ai_service.py`
(notification decision) and the matching-application step of
`backend/seed_data.py`.

Modelling conventions:
* Python `str` becomes `String`; free text is processed as `List Char`.
* Python `Optional[X]` becomes `Option X`; Python truthiness of an
  optional string (`None` and `""` are falsy) is `truthyStr`, and of an
  optional `Decimal` (`None` and `0` are falsy) is `truthyQ`.
* `Decimal` amounts become `ℚ` (exact fixed-point arithmetic).
* `datetime` values become `Int` timestamps; only their linear order is
  used by the code being modelled.  A `datetime` object is always truthy.
* The SQLAlchemy query in `find_matching_rewards` is modelled as the
  corresponding filters over the reward catalog, a `List Reward` in
  catalog-declaration order; `col.ilike("%x%")` is case-insensitive
  substring containment of `x` in `col`, and an SQL `NULL` column never
  matches.
-/

/-- Python truthiness of an optional string: `None` and `""` are falsy. -/
def truthyStr : Option String → Bool
  | none => false
  | some s => s != ""

/-- Python truthiness of an optional `Decimal`: `None` and `0` are falsy. -/
def truthyQ : Option ℚ → Bool
  | none => false
  | some q => q != 0

/-- Python `a or ''` on an optional string. -/
def orEmpty (o : Option String) : String := o.getD ""

/-- Python `a or b` on optional strings (`a` wins when truthy). -/
def pyOrStr (a b : Option String) : Option String :=
  if truthyStr a then a else b

/-- Python `str.lower()` (per-character, ASCII-adequate). -/
def lowerStr (s : List Char) : List Char := s.map Char.toLower

/-- Python `needle in hay` for strings: contiguous-sublist containment. -/
def containsSub : List Char → List Char → Bool
  | [], needle => needle.isEmpty
  | c :: t, needle => needle.isPrefixOf (c :: t) || containsSub t needle

/-- Python `str.split()` with no argument: split on whitespace runs,
dropping empty tokens. -/
def splitWs (s : List Char) : List (List Char) :=
  (s.splitOnP Char.isWhitespace).filter (fun w => !w.isEmpty)

/-- Python `str.capitalize()`: first character uppercased, rest lowercased. -/
def pyCapitalize : List Char → List Char
  | [] => []
  | c :: t => c.toUpper :: lowerStr t

/-- Python `str.title()` helper: the boolean records whether the previous
character was alphabetic. -/
def pyTitleAux : List Char → Bool → List Char
  | [], _ => []
  | c :: t, prevAlpha =>
    (if c.isAlpha then (if prevAlpha then c.toLower else c.toUpper) else c)
      :: pyTitleAux t c.isAlpha

/-- Python `str.title()`: uppercase each letter that follows a non-letter. -/
def pyTitle (s : List Char) : List Char := pyTitleAux s false

/-- `Transaction` record (`app/models.py` / `app/schemas.py`): identity
fields plus derived enrichment fields, which default to unset. -/
@[ext]
structure Transaction where
  customer_id : Nat
  account_id : Nat
  posted_at : Int
  transaction_at : Int
  description : String
  memo : Option String
  value_amount_usd : ℚ
  merchant_normalized : Option String := none
  category : Option String := none
  location_inferred : Option String := none
  matched_reward_id : Option Nat := none
  reward_applied : Bool := false
  reward_savings_amount : Option ℚ := none
  notification_triggered : Bool := false
deriving DecidableEq, Repr

/-- `Reward` record (`app/models.py` / `app/schemas.py`). -/
@[ext]
structure Reward where
  id : Nat
  merchant_name : String
  reward_type : String
  category : Option String := none
  start_date : Int
  end_date : Option Int := none
  max_savings_amount : Option ℚ := none
  geo_scope : String := "global"
  geo_city : Option String := none
  geo_country : Option String := none
  is_auto_applicable : Bool := false
  requires_user_opt_in : Bool := false
  percentage_value : Option ℚ := none
  fixed_amount_value : Option ℚ := none
deriving DecidableEq, Repr

/-- `User` record: only the field the engine reads. -/
structure User where
  primary_geo_location : Option String := none
deriving DecidableEq, Repr

/-- `UserPreference` record. -/
structure UserPreference where
  notifications_enabled : Bool := true
  priceless_geo_location : Option String := none
  priceless_notifications_enabled : Bool := true
  auto_apply_rewards_enabled : Bool := true
deriving DecidableEq, Repr

/-- `TransactionEnrichmentService.MERCHANT_PATTERNS`: a Python dict,
iterated in declaration order (insertion-ordered). -/
def MERCHANT_PATTERNS : List (String × String) :=
  [("starbucks", "Starbucks"),
   ("sbux", "Starbucks"),
   ("coffee", "Coffee Shop"),
   ("mcdonald", "McDonald's"),
   ("mcd", "McDonald's"),
   ("uber", "Uber"),
   ("lyft", "Lyft"),
   ("amazon", "Amazon"),
   ("whole foods", "Whole Foods"),
   ("target", "Target"),
   ("walmart", "Walmart"),
   ("restaurant", "Restaurant"),
   ("dining", "Restaurant"),
   ("hotel", "Hotel"),
   ("airline", "Airline"),
   ("gas", "Gas Station"),
   ("shell", "Shell"),
   ("exxon", "Exxon"),
   ("grocery", "Grocery Store")]

/-- `TransactionEnrichmentService.CATEGORY_PATTERNS`. -/
def CATEGORY_PATTERNS : List (String × List String) :=
  [("dining", ["restaurant", "cafe", "coffee", "starbucks", "mcdonald", "dining", "food", "pizza", "burger"]),
   ("travel", ["hotel", "airline", "uber", "lyft", "taxi", "airport", "travel", "booking"]),
   ("groceries", ["grocery", "whole foods", "safeway", "kroger", "walmart", "target", "supermarket"]),
   ("entertainment", ["movie", "theater", "cinema", "netflix", "spotify", "entertainment", "concert"]),
   ("shopping", ["amazon", "retail", "store", "shopping", "mall"]),
   ("gas", ["gas", "shell", "exxon", "chevron", "bp", "fuel"]),
   ("utilities", ["electric", "water", "gas bill", "utility", "internet", "phone"])]

/-- City substrings scanned by `infer_location`. -/
def CITY_LIST : List String :=
  ["new york", "nyc", "san francisco", "sf", "los angeles", "la",
   "chicago", "boston", "miami"]

/-- The lowercased combination `f"{description} {memo or ''}".lower()`. -/
def combined2 (description : String) (memo : Option String) : List Char :=
  lowerStr (description ++ " " ++ orEmpty memo).data

/-- `TransactionEnrichmentService.normalize_merchant`. -/
def normalize_merchant (description : String) (memo : Option String) :
    Option String :=
  match MERCHANT_PATTERNS.find?
      (fun p => containsSub (combined2 description memo) p.1.data) with
  | some p => some p.2
  | none =>
    match splitWs (combined2 description memo) with
    | [] => none
    | w :: _ => some (String.mk (pyCapitalize w))

/-- `TransactionEnrichmentService.infer_category`: the combination is
`f"{description} {memo or ''} {merchant or ''}".lower()`. -/
def infer_category (description : String) (memo : Option String)
    (merchant : Option String) : Option String :=
  let combined :=
    lowerStr (description ++ " " ++ orEmpty memo ++ " " ++ orEmpty merchant).data
  match CATEGORY_PATTERNS.find?
      (fun cp => cp.2.any (fun pat => containsSub combined pat.data)) with
  | some cp => some cp.1
  | none => none

/-- `TransactionEnrichmentService.infer_location`. -/
def infer_location (description : String) (memo : Option String) :
    Option String :=
  let combined := combined2 description memo
  match CITY_LIST.find? (fun c => containsSub combined c.data) with
  | some c => some (String.mk (pyTitle c.data))
  | none => none

/-- First block of `enrich_transaction`:
`if not transaction.merchant_normalized: transaction.merchant_normalized = ...`
(an untouched field keeps its value, so the guarded assignment is the
field update below). -/
def setMerchant (t : Transaction) : Transaction :=
  { t with merchant_normalized :=
      if truthyStr t.merchant_normalized then t.merchant_normalized
      else normalize_merchant t.description t.memo }

/-- Second block of `enrich_transaction` (reads the possibly-updated
`merchant_normalized`). -/
def setCategory (t : Transaction) : Transaction :=
  { t with category :=
      if truthyStr t.category then t.category
      else infer_category t.description t.memo t.merchant_normalized }

/-- Third block of `enrich_transaction`. -/
def setLocation (t : Transaction) : Transaction :=
  { t with location_inferred :=
      if truthyStr t.location_inferred then t.location_inferred
      else infer_location t.description t.memo }

/-- `TransactionEnrichmentService.enrich_transaction`: the three guarded
assignments, in program order. -/
def enrich_transaction (t : Transaction) : Transaction :=
  setLocation (setCategory (setMerchant t))

/-- Case-insensitive SQL `col ILIKE '%needle%'` on a nullable column:
`NULL` never matches. -/
def ilikeOpt (col : Option String) (needle : String) : Bool :=
  match col with
  | none => false
  | some s => containsSub (lowerStr s.data) (lowerStr needle.data)

/-- Case-insensitive SQL `col ILIKE '%needle%'` on a non-null column. -/
def ilikeStr (col : String) (needle : String) : Bool :=
  containsSub (lowerStr col.data) (lowerStr needle.data)

/-- Resolution of the user's geo in `find_matching_rewards`:
preferences' `priceless_geo_location` if truthy, else the user's
`primary_geo_location` if truthy, else unknown. -/
def resolveUserGeo (user : User) (prefs : Option UserPreference) :
    Option String :=
  match prefs with
  | some p =>
    if truthyStr p.priceless_geo_location then p.priceless_geo_location
    else if truthyStr user.primary_geo_location then user.primary_geo_location
    else none
  | none =>
    if truthyStr user.primary_geo_location then user.primary_geo_location
    else none

/-- Temporal filter of the reward query:
`start_date <= transaction_at` and (`end_date` is `NULL` or
`end_date >= transaction_at`).  The Python guard
`if transaction.transaction_at:` always holds (a `datetime` is truthy),
so the end-date clause is always applied. -/
def temporal_ok (r : Reward) (tat : Int) : Bool :=
  decide (r.start_date ≤ tat) &&
    (match r.end_date with
     | none => true
     | some e => decide (tat ≤ e))

/-- Merchant/category relevance filter:
`merchant_name ILIKE '%merchant_normalized%'` (when the transaction's
merchant is truthy) OR `category == transaction.category` (when the
transaction's category is truthy; SQL equality, so a `NULL` reward
category never matches). -/
def relevance_ok (t : Transaction) (r : Reward) : Bool :=
  (truthyStr t.merchant_normalized &&
     ilikeStr r.merchant_name (orEmpty t.merchant_normalized)) ||
  (truthyStr t.category && (r.category == t.category))

/-- Geo filter, applied only when the resolved user geo is truthy:
`geo_scope == "global" OR geo_city ILIKE '%user_geo%' OR
geo_country ILIKE '%user_geo%'`. -/
def geo_ok (user_geo : Option String) (r : Reward) : Bool :=
  if truthyStr user_geo then
    (r.geo_scope == "global") || ilikeOpt r.geo_city (orEmpty user_geo)
      || ilikeOpt r.geo_country (orEmpty user_geo)
  else true

/-- Auto-apply eligibility:
`r.is_auto_applicable and not r.requires_user_opt_in`. -/
def auto_eligible (r : Reward) : Bool :=
  r.is_auto_applicable && !r.requires_user_opt_in

/-- The query part of `RewardMatchingService.find_matching_rewards`:
enrich, then temporal filter, then (if neither a merchant nor a category
is available, return the empty list, else) relevance filter, then the
geo filter.  `query.all()` returns the filtered catalog in catalog
order. -/
def candidate_rewards (catalog : List Reward) (t0 : Transaction)
    (user : User) (prefs : Option UserPreference) : List Reward :=
  if !truthyStr (enrich_transaction t0).merchant_normalized
      && !truthyStr (enrich_transaction t0).category then []
  else
    (((catalog.filter
          (fun r => temporal_ok r (enrich_transaction t0).transaction_at)).filter
        (relevance_ok (enrich_transaction t0))).filter
      (geo_ok (resolveUserGeo user prefs)))

/-- `RewardMatchingService.find_matching_rewards`: the query above,
then, when the user's auto-apply preference is enabled, the
auto-applicable sublist truncated to its first element (if non-empty). -/
def find_matching_rewards (catalog : List Reward) (t0 : Transaction)
    (user : User) (prefs : Option UserPreference) : List Reward :=
  match prefs with
  | some p =>
    if p.auto_apply_rewards_enabled then
      if !((candidate_rewards catalog t0 user prefs).filter auto_eligible).isEmpty
      then ((candidate_rewards catalog t0 user prefs).filter auto_eligible).take 1
      else candidate_rewards catalog t0 user prefs
    else candidate_rewards catalog t0 user prefs
  | none => candidate_rewards catalog t0 user prefs

/-- `RewardMatchingService.calculate_reward_savings`.  Note the Python
truthiness tests: a `None` or zero `percentage_value` /
`fixed_amount_value` skips its branch, and a `None` or zero
`max_savings_amount` skips the cap. -/
def calculate_reward_savings (t : Transaction) (reward : Reward) : ℚ :=
  let transaction_amount := |t.value_amount_usd|
  if reward.reward_type == "percentage_cashback"
      && truthyQ reward.percentage_value then
    let savings := transaction_amount * ((reward.percentage_value.getD 0) / 100)
    if truthyQ reward.max_savings_amount then
      min savings (reward.max_savings_amount.getD 0)
    else savings
  else if reward.reward_type == "fixed_amount"
      && truthyQ reward.fixed_amount_value then
    reward.fixed_amount_value.getD 0
  else 0

/-- The matching-application step of `seed_data.py`
(`create_sample_transactions`): enrich, find matching rewards, and if
any, record the first one's id and savings, then set the applied /
notification flags.  `userActed` stands for the random
`random.random() < 0.3` draw. -/
def apply_matching (catalog : List Reward) (t0 : Transaction) (user : User)
    (prefs : Option UserPreference) (userActed : Bool) : Transaction :=
  let t := enrich_transaction t0
  match find_matching_rewards catalog t user prefs with
  | [] => t
  | reward :: _ =>
    let t1 := { t with matched_reward_id := some reward.id }
    let t2 := { t1 with
                reward_savings_amount := some (calculate_reward_savings t1 reward) }
    match prefs with
    | some p =>
      if p.auto_apply_rewards_enabled then
        if auto_eligible reward then
          { t2 with reward_applied := true }
        else if userActed then
          { t2 with notification_triggered := true, reward_applied := true }
        else t2
      else t2
    | none => t2

/-- The preferences dict handed to
`AiInsightsService.should_send_notification`; `.get(key, True)` on a
missing key yields the default, hence optional booleans. -/
structure PrefsDict where
  notifications_enabled : Option Bool := none
  priceless_notifications_enabled : Option Bool := none
  priceless_geo_location : Option String := none
deriving DecidableEq, Repr

/-- `AiInsightsService.should_send_notification`, with the current time
as an explicit parameter (`datetime.now(...)` in the source; the tzinfo
plumbing does not affect the comparisons modelled here). -/
def should_send_notification (now : Int) (user : User)
    (user_preferences : PrefsDict) (experience : Reward) : Bool :=
  if !(user_preferences.priceless_notifications_enabled.getD true) then false
  else if !(user_preferences.notifications_enabled.getD true) then false
  else
    let user_geo :=
      pyOrStr user_preferences.priceless_geo_location user.primary_geo_location
    let geoReject :=
      (experience.geo_scope != "global") &&
        (!truthyStr user_geo ||
          (truthyStr experience.geo_city &&
            !containsSub (lowerStr (orEmpty experience.geo_city).data)
              (lowerStr (orEmpty user_geo).data)))
    if geoReject then false
    else if decide (now < experience.start_date) ||
        (match experience.end_date with
         | some e => decide (e < now)
         | none => false) then false
    else true

/-! ## Basic lemmas about the embedding -/

theorem enrich_description (t : Transaction) :
    (enrich_transaction t).description = t.description := rfl

theorem enrich_memo (t : Transaction) :
    (enrich_transaction t).memo = t.memo := rfl

theorem enrich_transaction_at (t : Transaction) :
    (enrich_transaction t).transaction_at = t.transaction_at := rfl

theorem enrich_value (t : Transaction) :
    (enrich_transaction t).value_amount_usd = t.value_amount_usd := rfl

theorem enrich_notification (t : Transaction) :
    (enrich_transaction t).notification_triggered = t.notification_triggered := rfl

theorem enrich_merchant (t : Transaction) :
    (enrich_transaction t).merchant_normalized =
      if truthyStr t.merchant_normalized then t.merchant_normalized
      else normalize_merchant t.description t.memo := rfl

theorem enrich_category (t : Transaction) :
    (enrich_transaction t).category =
      if truthyStr t.category then t.category
      else infer_category t.description t.memo
        ((enrich_transaction t).merchant_normalized) := rfl

theorem enrich_location (t : Transaction) :
    (enrich_transaction t).location_inferred =
      if truthyStr t.location_inferred then t.location_inferred
      else infer_location t.description t.memo := rfl

/-- Enriching twice changes nothing: every derived field is recomputed
from the unchanged `description`/`memo` (and the already-stable
merchant), so the second pass reproduces the first pass's value. -/
theorem enrich_idem (t : Transaction) :
    enrich_transaction (enrich_transaction t) = enrich_transaction t := by
  have hm : (enrich_transaction (enrich_transaction t)).merchant_normalized
      = (enrich_transaction t).merchant_normalized := by
    rw [enrich_merchant (enrich_transaction t), enrich_description, enrich_memo,
      enrich_merchant t]
    cases h : truthyStr t.merchant_normalized <;> simp [h, ite_self]
  have hc : (enrich_transaction (enrich_transaction t)).category
      = (enrich_transaction t).category := by
    rw [enrich_category (enrich_transaction t), enrich_description, enrich_memo, hm,
      enrich_category t]
    cases h : truthyStr t.category <;> simp [h, ite_self]
  have hl : (enrich_transaction (enrich_transaction t)).location_inferred
      = (enrich_transaction t).location_inferred := by
    rw [enrich_location (enrich_transaction t), enrich_description, enrich_memo,
      enrich_location t]
    cases h : truthyStr t.location_inferred <;> simp [h, ite_self]
  apply Transaction.ext <;> first | assumption | rfl

theorem candidate_rewards_enrich (catalog : List Reward) (t0 : Transaction)
    (user : User) (prefs : Option UserPreference) :
    candidate_rewards catalog (enrich_transaction t0) user prefs
      = candidate_rewards catalog t0 user prefs := by
  unfold candidate_rewards
  rw [enrich_idem]

theorem find_matching_rewards_enrich (catalog : List Reward) (t0 : Transaction)
    (user : User) (prefs : Option UserPreference) :
    find_matching_rewards catalog (enrich_transaction t0) user prefs
      = find_matching_rewards catalog t0 user prefs := by
  unfold find_matching_rewards
  rw [candidate_rewards_enrich]

/-- Everything `find_matching_rewards` returns came out of the query. -/
theorem find_subset_candidates (catalog : List Reward) (t0 : Transaction)
    (user : User) (prefs : Option UserPreference) :
    ∀ r ∈ find_matching_rewards catalog t0 user prefs,
      r ∈ candidate_rewards catalog t0 user prefs := by
  intro r hr
  unfold find_matching_rewards at hr
  match prefs with
  | none => exact hr
  | some p =>
    simp only at hr
    split at hr
    · split at hr
      · exact List.mem_of_mem_filter (List.mem_of_mem_take hr)
      · exact hr
    · exact hr

/-- Every candidate passed the temporal filter. -/
theorem candidate_temporal (catalog : List Reward) (t0 : Transaction)
    (user : User) (prefs : Option UserPreference) :
    ∀ r ∈ candidate_rewards catalog t0 user prefs,
      temporal_ok r t0.transaction_at = true := by
  intro r hr
  unfold candidate_rewards at hr
  split at hr
  · simp at hr
  · have h1 := (List.mem_filter.mp hr).1
    have h2 := (List.mem_filter.mp h1).1
    exact (List.mem_filter.mp h2).2

/-- Every candidate passed the geo filter. -/
theorem candidate_geo (catalog : List Reward) (t0 : Transaction)
    (user : User) (prefs : Option UserPreference) :
    ∀ r ∈ candidate_rewards catalog t0 user prefs,
      geo_ok (resolveUserGeo user prefs) r = true := by
  intro r hr
  unfold candidate_rewards at hr
  split at hr
  · simp at hr
  · exact (List.mem_filter.mp hr).2

/-- The user geo resolved by `find_matching_rewards` is never the empty
string (only truthy values are selected). -/
theorem resolveUserGeo_ne_empty (user : User) (prefs : Option UserPreference)
    (g : String) (h : resolveUserGeo user prefs = some g) : g ≠ "" := by
  unfold resolveUserGeo at h
  intro hg
  subst hg
  match prefs with
  | none =>
    simp only at h
    split at h
    · next ht => rw [h] at ht; simp [truthyStr] at ht
    · exact Option.noConfusion h
  | some p =>
    simp only at h
    split at h
    · next ht => rw [h] at ht; simp [truthyStr] at ht
    · split at h
      · next ht => rw [h] at ht; simp [truthyStr] at ht
      · exact Option.noConfusion h

/-! ## Concrete fixtures -/

/-- A transaction of $-10 with no enrichable text. -/
def tFix : Transaction :=
  { customer_id := 1, account_id := 1, posted_at := 0, transaction_at := 0,
    description := "x", memo := none, value_amount_usd := -10 }

/-- A fixed-amount reward of $100 carrying a $50 cap. -/
def rFixAmt : Reward :=
  { id := 1, merchant_name := "M", reward_type := "fixed_amount",
    start_date := 0, fixed_amount_value := some 100,
    max_savings_amount := some 50 }

/-- A percentage reward whose required `percentage_value` is missing. -/
def rNoPv : Reward :=
  { id := 2, merchant_name := "M", reward_type := "percentage_cashback",
    start_date := 0, percentage_value := none }

/-- A legitimate $0 fixed-amount reward. -/
def rZeroFix : Reward :=
  { id := 3, merchant_name := "M", reward_type := "fixed_amount",
    start_date := 0, fixed_amount_value := some 0 }

/-- The C6 scenario transaction: amount $-2000. -/
def tPct : Transaction :=
  { customer_id := 1, account_id := 1, posted_at := 0, transaction_at := 0,
    description := "x", memo := none, value_amount_usd := -2000 }

/-- The C6 scenario reward: 5% cashback capped at $50. -/
def rPct : Reward :=
  { id := 4, merchant_name := "M", reward_type := "percentage_cashback",
    start_date := 0, percentage_value := some 5, max_savings_amount := some 50 }

/-- The same 5% reward with its cap set to zero. -/
def rPctZeroCap : Reward := { rPct with max_savings_amount := some 0 }

/-- An experience reward (nominal value only). -/
def rExp : Reward :=
  { id := 5, merchant_name := "M", reward_type := "experience",
    start_date := 0, fixed_amount_value := some 150 }

/-! ## C1 -/

/-- C1 is false as stated: for a `fixed_amount` reward the code returns
`fixed_amount_value` without consulting `max_savings_amount`, so a $100
fixed reward with a $50 cap yields $100 > $50. -/
theorem C1_counterexample :
    rFixAmt.max_savings_amount = some 50 ∧
    calculate_reward_savings tFix rFixAmt = 100 ∧
    ¬ calculate_reward_savings tFix rFixAmt ≤ 50 := by
  have h : calculate_reward_savings tFix rFixAmt = 100 := by
    norm_num [calculate_reward_savings, tFix, rFixAmt, truthyQ]
  refine ⟨rfl, h, ?_⟩
  rw [h]
  norm_num

/-- C1 amended: for every `percentage_cashback` reward whose
`max_savings_amount` is set to a positive value, and for every
transaction amount, `calculate_reward_savings` does not exceed the cap;
the cap is not enforced for other reward types, nor when it is zero. -/
theorem C1_amended (t : Transaction) (r : Reward) (m : ℚ)
    (hty : r.reward_type = "percentage_cashback")
    (hmax : r.max_savings_amount = some m) (hpos : 0 < m) :
    calculate_reward_savings t r ≤ m := by
  unfold calculate_reward_savings
  rw [hty, hmax]
  cases hq : truthyQ r.percentage_value
  · simp only [hq, Bool.and_false, if_neg, Bool.false_eq_true, not_false_iff,
      if_false]
    have : ("percentage_cashback" == "fixed_amount") = false := by decide
    simp only [this, Bool.false_and, Bool.false_eq_true, not_false_iff, if_false]
    exact le_of_lt hpos
  · have hm : truthyQ (some m) = true := by
      simp [truthyQ, bne_iff_ne]
      exact ne_of_gt hpos
    simp only [hq, hm, beq_self_eq_true, Bool.and_true, Bool.true_and, if_true,
      Option.getD_some]
    exact min_le_right _ _

/-- Witness: the amended C1 applied to the 5%-capped-at-50 reward. -/
theorem C1_witness :
    rPct.reward_type = "percentage_cashback" ∧
    rPct.max_savings_amount = some 50 ∧ (0 : ℚ) < 50 ∧
    calculate_reward_savings tPct rPct ≤ 50 :=
  ⟨rfl, rfl, by norm_num, C1_amended tPct rPct 50 rfl rfl (by norm_num)⟩

/-! ## C4 -/

/-- C4 is false as stated: a `percentage_cashback` reward missing its
`percentage_value` and a legitimate $0 `fixed_amount` reward produce the
same output `Decimal("0.00")` — there is no distinguishable
"indeterminate" outcome. -/
theorem C4_counterexample :
    rNoPv.reward_type = "percentage_cashback" ∧
    rNoPv.percentage_value = none ∧
    rZeroFix.reward_type = "fixed_amount" ∧
    rZeroFix.fixed_amount_value = some 0 ∧
    calculate_reward_savings tFix rNoPv = calculate_reward_savings tFix rZeroFix ∧
    calculate_reward_savings tFix rNoPv = 0 := by
  have h1 : calculate_reward_savings tFix rNoPv = 0 := by
    norm_num [calculate_reward_savings, tFix, rNoPv, truthyQ]
  have h2 : calculate_reward_savings tFix rZeroFix = 0 := by
    norm_num [calculate_reward_savings, tFix, rZeroFix, truthyQ]
  exact ⟨rfl, rfl, rfl, rfl, h1.trans h2.symm, h1⟩

/-- C4 amended: for every reward missing its type-required numeric field
the savings calculation silently returns the same `Decimal("0.00")` as a
legitimate zero-savings reward; no explicit indeterminate outcome is
reported. -/
theorem C4_amended (t : Transaction) (r : Reward)
    (h : (r.reward_type = "percentage_cashback" ∧ r.percentage_value = none) ∨
         (r.reward_type = "fixed_amount" ∧ r.fixed_amount_value = none)) :
    calculate_reward_savings t r = 0 := by
  unfold calculate_reward_savings
  rcases h with ⟨hty, hv⟩ | ⟨hty, hv⟩ <;> rw [hty, hv] <;>
    simp [truthyQ]

/-- Witness: the amended C4 applied to the percentage reward with a
missing `percentage_value`. -/
theorem C4_witness :
    rNoPv.reward_type = "percentage_cashback" ∧ rNoPv.percentage_value = none ∧
    calculate_reward_savings tFix rNoPv = 0 :=
  ⟨rfl, rfl, C4_amended tFix rNoPv (Or.inl ⟨rfl, rfl⟩)⟩

/-! ## C6 -/

/-- C6 is false as stated: with `max_savings_amount` present but equal to
zero the cap is skipped (Python truthiness), so a 5% reward on $-2000
returns 100 rather than `min(100, 0) = 0` demanded by the claim's
formula. -/
theorem C6_counterexample :
    rPctZeroCap.percentage_value = some 5 ∧
    rPctZeroCap.max_savings_amount = some 0 ∧
    calculate_reward_savings tPct rPctZeroCap = 100 ∧
    min (|tPct.value_amount_usd| * (5 / 100)) 0 = 0 ∧
    calculate_reward_savings tPct rPctZeroCap ≠
      min (|tPct.value_amount_usd| * (5 / 100)) 0 := by
  have h : calculate_reward_savings tPct rPctZeroCap = 100 := by
    norm_num [calculate_reward_savings, tPct, rPctZeroCap, rPct, truthyQ]
  have hmin : min (|tPct.value_amount_usd| * (5 / 100)) 0 = (0 : ℚ) := by
    norm_num [tPct, min_def]
  exact ⟨rfl, rfl, h, hmin, by rw [h, hmin]; norm_num⟩

/-- C6 amended: for a `percentage_cashback` reward with nonzero
`percentage_value` `p`, the savings is `|amount| * p / 100`, reduced to
the minimum with `max_savings_amount` when that cap is present *and
nonzero* (a zero cap is skipped); in particular for p = 5, cap = 50 and
amount = -2000 the result is exactly 50. -/
theorem C6_amended (t : Transaction) (r : Reward) (p : ℚ)
    (hty : r.reward_type = "percentage_cashback")
    (hpv : r.percentage_value = some p) (hp : p ≠ 0) :
    (∀ m, r.max_savings_amount = some m → m ≠ 0 →
        calculate_reward_savings t r = min (|t.value_amount_usd| * (p / 100)) m)
    ∧ ((r.max_savings_amount = none ∨ r.max_savings_amount = some 0) →
        calculate_reward_savings t r = |t.value_amount_usd| * (p / 100))
    ∧ calculate_reward_savings tPct rPct = 50 := by
  have hsc : calculate_reward_savings tPct rPct = 50 := by
    norm_num [calculate_reward_savings, tPct, rPct, truthyQ, min_def]
  refine ⟨?_, ?_, hsc⟩
  · intro m hm hm0
    unfold calculate_reward_savings
    rw [hty, hpv, hm]
    have hq : truthyQ (some p) = true := by simp [truthyQ, bne_iff_ne, hp]
    have hqm : truthyQ (some m) = true := by simp [truthyQ, bne_iff_ne, hm0]
    simp [hq, hqm, min_def]
  · intro hm
    unfold calculate_reward_savings
    rw [hty, hpv]
    have hq : truthyQ (some p) = true := by simp [truthyQ, bne_iff_ne, hp]
    rcases hm with hm | hm <;> rw [hm] <;>
      simp only [beq_self_eq_true, Bool.true_and, hq, if_true,
        Option.getD_some] <;> simp [truthyQ]

/-- Witness: the amended C6 applied to the scenario reward (5%, cap 50,
amount $-2000). -/
theorem C6_witness :
    rPct.reward_type = "percentage_cashback" ∧
    rPct.percentage_value = some 5 ∧ (5 : ℚ) ≠ 0 ∧
    rPct.max_savings_amount = some 50 ∧ (50 : ℚ) ≠ 0 ∧
    calculate_reward_savings tPct rPct =
      min (|tPct.value_amount_usd| * (5 / 100)) 50 :=
  ⟨rfl, rfl, by norm_num, rfl, by norm_num,
    (C6_amended tPct rPct 5 rfl rfl (by norm_num)).1 50 rfl (by norm_num)⟩

/-! ## C9 -/

/-- C9 (implicit): for every reward that is neither a percentage reward
with a non-null nonzero `percentage_value` nor a fixed-amount reward
with a non-null nonzero `fixed_amount_value` — in particular every
`experience` reward — `calculate_reward_savings` is total and returns
exactly 0. -/
theorem C9_theorem (t : Transaction) (r : Reward)
    (h1 : r.reward_type = "percentage_cashback" →
       r.percentage_value = none ∨ r.percentage_value = some 0)
    (h2 : r.reward_type = "fixed_amount" →
       r.fixed_amount_value = none ∨ r.fixed_amount_value = some 0) :
    calculate_reward_savings t r = 0 := by
  unfold calculate_reward_savings
  cases hty : r.reward_type == "percentage_cashback"
  · cases hty2 : r.reward_type == "fixed_amount"
    · simp [hty, hty2]
    · rcases h2 (by simpa using hty2) with hv | hv <;> rw [hv] <;>
        simp [hty, hty2, truthyQ]
  · have he : r.reward_type = "percentage_cashback" := by simpa using hty
    have hne : ("percentage_cashback" == "fixed_amount") = false := by decide
    rcases h1 he with hv | hv <;> rw [hv] <;> simp [he, hne, truthyQ]

/-- Witness: C9 applied to an `experience` reward. -/
theorem C9_witness : calculate_reward_savings tFix rExp = 0 :=
  C9_theorem tFix rExp (fun h => absurd h (by decide))
    (fun h => absurd h (by decide))

/-! ## C5 -/

/-- A user with no geo location on file. -/
def uNone : User := {}

/-- A reward whose validity starts at time 10. -/
def rLate : Reward :=
  { id := 6, merchant_name := "Starbucks", reward_type := "percentage_cashback",
    start_date := 10, percentage_value := some 5 }

/-- A Starbucks transaction at time 5. -/
def tEarly : Transaction :=
  { customer_id := 1, account_id := 1, posted_at := 5, transaction_at := 5,
    description := "STARBUCKS", memo := none, value_amount_usd := -10 }

/-- C5: a transaction strictly before `start_date`, or strictly after a
set `end_date`, excludes the reward from the catalog filter's result;
and the temporal filter keeps a reward iff `start_date ≤ t` and
(`end_date` is absent or `end_date ≥ t`). -/
theorem C5_theorem (catalog : List Reward) (t0 : Transaction) (u : User)
    (prefs : Option UserPreference) (r : Reward) :
    ((t0.transaction_at < r.start_date ∨
        (∃ e, r.end_date = some e ∧ e < t0.transaction_at)) →
      r ∉ find_matching_rewards catalog t0 u prefs)
    ∧ (temporal_ok r t0.transaction_at = true ↔
        (r.start_date ≤ t0.transaction_at ∧
          (r.end_date = none ∨
            ∃ e, r.end_date = some e ∧ t0.transaction_at ≤ e))) := by
  have hiff : temporal_ok r t0.transaction_at = true ↔
      (r.start_date ≤ t0.transaction_at ∧
        (r.end_date = none ∨
          ∃ e, r.end_date = some e ∧ t0.transaction_at ≤ e)) := by
    unfold temporal_ok
    cases he : r.end_date <;> simp [he]
  refine ⟨?_, hiff⟩
  intro hbad hmem
  have ht := candidate_temporal catalog t0 u prefs r
    (find_subset_candidates catalog t0 u prefs r hmem)
  obtain ⟨h1, h2⟩ := hiff.mp ht
  rcases hbad with hb | ⟨e, he, hlt⟩
  · omega
  · rcases h2 with h2 | ⟨e2, he2, hle⟩
    · rw [he] at h2; exact Option.noConfusion h2
    · rw [he] at he2
      have : e = e2 := Option.some.inj he2
      omega

/-- Witness: C5 excludes a reward starting at time 10 from the matches of
a transaction at time 5. -/
theorem C5_witness : rLate ∉ find_matching_rewards [rLate] tEarly uNone none :=
  (C5_theorem [rLate] tEarly uNone none rLate).1 (Or.inl (by decide))

/-! ## C2 -/

/-- A city-scoped Starbucks reward (New York). -/
def rCity : Reward :=
  { id := 7, merchant_name := "Starbucks", reward_type := "percentage_cashback",
    start_date := 0, geo_scope := "city", geo_city := some "New York",
    percentage_value := some 5 }

/-- A user whose geo resolves to Boston. -/
def uBoston : User := { primary_geo_location := some "Boston" }

/-- C2 is false as stated: with the user geo unknown, the geo filter is
skipped entirely (`if user_geo:`), so a city-scoped reward that passes
the temporal and relevance filters is returned, not excluded. -/
theorem C2_counterexample :
    rCity.geo_scope = "city" ∧
    resolveUserGeo uNone none = none ∧
    find_matching_rewards [rCity] tEarly uNone none = [rCity] := by
  refine ⟨rfl, rfl, ?_⟩
  decide

/-- C2 amended: a city-scoped reward is excluded on geo grounds only when
the user's geo is known (truthy) and not substring-contained in
`geo_city` or `geo_country`; when the user's geo is unknown, the geo
filter is skipped and membership in the catalog filter's candidate list
is decided by the temporal and relevance filters alone. -/
theorem C2_amended (catalog : List Reward) (t0 : Transaction) (u : User)
    (prefs : Option UserPreference) (r : Reward) :
    (∀ g, resolveUserGeo u prefs = some g →
       r.geo_scope = "city" →
       ilikeOpt r.geo_city g = false → ilikeOpt r.geo_country g = false →
       r ∉ find_matching_rewards catalog t0 u prefs)
    ∧ (resolveUserGeo u prefs = none →
        (r ∈ candidate_rewards catalog t0 u prefs ↔
          r ∈ catalog ∧ temporal_ok r t0.transaction_at = true ∧
          relevance_ok (enrich_transaction t0) r = true ∧
          (truthyStr (enrich_transaction t0).merchant_normalized = true ∨
           truthyStr (enrich_transaction t0).category = true))) := by
  constructor
  · intro g hg hscope hc1 hc2 hmem
    have hcand := find_subset_candidates catalog t0 u prefs r hmem
    have hgeo := candidate_geo catalog t0 u prefs r hcand
    have hne := resolveUserGeo_ne_empty u prefs g hg
    unfold geo_ok at hgeo
    rw [hg] at hgeo
    have ht : truthyStr (some g) = true := by simp [truthyStr, hne]
    rw [if_pos ht] at hgeo
    rw [hscope] at hgeo
    simp [orEmpty, hc1, hc2] at hgeo
  · intro hg
    have hgeo : ∀ x, geo_ok (resolveUserGeo u prefs) x = true := by
      intro x
      unfold geo_ok
      rw [hg]
      simp [truthyStr]
    unfold candidate_rewards
    rw [List.filter_eq_self.mpr (fun a _ => hgeo a)]
    cases h : (!truthyStr (enrich_transaction t0).merchant_normalized
        && !truthyStr (enrich_transaction t0).category)
    · have hdisj : truthyStr (enrich_transaction t0).merchant_normalized = true ∨
          truthyStr (enrich_transaction t0).category = true := by
        cases ha : truthyStr (enrich_transaction t0).merchant_normalized
        · cases hb : truthyStr (enrich_transaction t0).category
          · rw [ha, hb] at h
            simp at h
          · exact Or.inr rfl
        · exact Or.inl rfl
      simp [h, List.mem_filter, enrich_transaction_at, hdisj, and_assoc,
        and_comm]
    · have hab : truthyStr (enrich_transaction t0).merchant_normalized = false ∧
          truthyStr (enrich_transaction t0).category = false := by
        constructor
        · cases ha : truthyStr (enrich_transaction t0).merchant_normalized
          · rfl
          · rw [ha] at h; simp at h
        · cases hb : truthyStr (enrich_transaction t0).category
          · rfl
          · rw [hb] at h; simp at h
      simp [h, hab.1, hab.2]

/-- Witness: the amended C2 excludes the New-York-scoped reward for a
Boston user. -/
theorem C2_witness : rCity ∉ find_matching_rewards [rCity] tEarly uBoston none :=
  (C2_amended [rCity] tEarly uBoston none rCity).1 "Boston" (by decide) rfl
    (by decide) (by decide)

/-! ## C3 -/

/-- `calculate_reward_savings` reads the transaction only through
`value_amount_usd`. -/
theorem calculate_reward_savings_value (t t' : Transaction) (r : Reward)
    (h : t.value_amount_usd = t'.value_amount_usd) :
    calculate_reward_savings t r = calculate_reward_savings t' r := by
  unfold calculate_reward_savings
  rw [h]

/-- C3: with auto-apply enabled and at least one auto-applicable,
no-opt-in candidate, `find_matching_rewards` returns exactly the first
such candidate (in catalog order) and nothing else, and the applying
caller records its id, marks the reward applied, leaves
`notification_triggered` false, and stores the Savings Calculator's
result. -/
theorem C3_theorem (catalog : List Reward) (t0 : Transaction) (u : User)
    (p : UserPreference) (ua : Bool) (r : Reward) (rest : List Reward)
    (hauto : p.auto_apply_rewards_enabled = true)
    (hfilter : (candidate_rewards catalog t0 u (some p)).filter auto_eligible
      = r :: rest)
    (hnt : t0.notification_triggered = false) :
    find_matching_rewards catalog t0 u (some p) = [r]
    ∧ r ∈ candidate_rewards catalog t0 u (some p)
    ∧ auto_eligible r = true
    ∧ (apply_matching catalog t0 u (some p) ua).matched_reward_id = some r.id
    ∧ (apply_matching catalog t0 u (some p) ua).reward_applied = true
    ∧ (apply_matching catalog t0 u (some p) ua).notification_triggered = false
    ∧ (apply_matching catalog t0 u (some p) ua).reward_savings_amount
        = some (calculate_reward_savings t0 r) := by
  have hmemf : r ∈ (candidate_rewards catalog t0 u (some p)).filter auto_eligible := by
    rw [hfilter]
    exact List.mem_cons_self _ _
  have hmem : r ∈ candidate_rewards catalog t0 u (some p) :=
    List.mem_of_mem_filter hmemf
  have helig : auto_eligible r = true := (List.mem_filter.mp hmemf).2
  have hfind : find_matching_rewards catalog t0 u (some p) = [r] := by
    unfold find_matching_rewards
    simp [hauto, hfilter]
  have happly : apply_matching catalog t0 u (some p) ua =
      { enrich_transaction t0 with
        matched_reward_id := some r.id
        reward_savings_amount := some (calculate_reward_savings
          { enrich_transaction t0 with matched_reward_id := some r.id } r)
        reward_applied := true } := by
    simp only [apply_matching]
    rw [find_matching_rewards_enrich, hfind]
    simp [hauto, helig]
  refine ⟨hfind, hmem, helig, ?_, ?_, ?_, ?_⟩
  · rw [happly]
  · rw [happly]
  · rw [happly]
    exact hnt
  · rw [happly]
    show some (calculate_reward_savings
        { enrich_transaction t0 with matched_reward_id := some r.id } r)
      = some (calculate_reward_savings t0 r)
    exact congrArg some (calculate_reward_savings_value _ t0 r rfl)

/-- A relevant, active Starbucks reward that is not auto-applicable. -/
def rManual : Reward :=
  { id := 8, merchant_name := "Starbucks", reward_type := "percentage_cashback",
    start_date := 0, percentage_value := some 10, is_auto_applicable := false }

/-- A relevant, active Starbucks reward that is auto-applicable with no
opt-in. -/
def rAuto : Reward :=
  { id := 9, merchant_name := "Starbucks", reward_type := "percentage_cashback",
    start_date := 0, percentage_value := some 3, is_auto_applicable := true,
    requires_user_opt_in := false }

/-- Preferences with auto-apply enabled. -/
def prefsAuto : UserPreference := { auto_apply_rewards_enabled := true }

/-- Witness: with two candidates of which only the second is
auto-applicable, C3 selects exactly that one and applies it. -/
theorem C3_witness :
    find_matching_rewards [rManual, rAuto] tEarly uNone (some prefsAuto) = [rAuto]
    ∧ (apply_matching [rManual, rAuto] tEarly uNone (some prefsAuto) false).matched_reward_id
        = some rAuto.id
    ∧ (apply_matching [rManual, rAuto] tEarly uNone (some prefsAuto) false).reward_applied
        = true
    ∧ (apply_matching [rManual, rAuto] tEarly uNone (some prefsAuto) false).notification_triggered
        = false := by
  have h := C3_theorem [rManual, rAuto] tEarly uNone prefsAuto false rAuto []
    rfl (by decide) rfl
  exact ⟨h.1, h.2.2.2.1, h.2.2.2.2.1, h.2.2.2.2.2.1⟩

/-! ## C8 -/

/-- A transaction whose `merchant_normalized` is populated with the
empty string (Python-falsy). -/
def tEmptyMerchant : Transaction :=
  { customer_id := 1, account_id := 1, posted_at := 0, transaction_at := 0,
    description := "uber ride", memo := none, value_amount_usd := -10,
    merchant_normalized := some "" }

/-- C8 is false as stated: a derived field populated with the empty
string is Python-falsy, so `enrich_transaction` overwrites it. -/
theorem C8_counterexample :
    tEmptyMerchant.merchant_normalized.isSome = true ∧
    (enrich_transaction tEmptyMerchant).merchant_normalized = some "Uber" ∧
    (enrich_transaction tEmptyMerchant).merchant_normalized
      ≠ tEmptyMerchant.merchant_normalized := by
  refine ⟨rfl, ?_, ?_⟩ <;> decide

/-- C8 amended: enrichment is idempotent (a second pass changes
nothing), and a derived field populated with a *non-empty* value is
never overwritten; a field holding the empty string counts as
unpopulated and may be overwritten. -/
theorem C8_amended (t : Transaction) :
    enrich_transaction (enrich_transaction t) = enrich_transaction t
    ∧ (truthyStr t.merchant_normalized = true →
        (enrich_transaction t).merchant_normalized = t.merchant_normalized)
    ∧ (truthyStr t.category = true →
        (enrich_transaction t).category = t.category)
    ∧ (truthyStr t.location_inferred = true →
        (enrich_transaction t).location_inferred = t.location_inferred) := by
  refine ⟨enrich_idem t, ?_, ?_, ?_⟩
  · intro h
    rw [enrich_merchant, if_pos h]
  · intro h
    rw [enrich_category, if_pos h]
  · intro h
    rw [enrich_location, if_pos h]

/-- A transaction with all three derived fields already populated. -/
def tFull : Transaction :=
  { customer_id := 1, account_id := 1, posted_at := 0, transaction_at := 0,
    description := "STARBUCKS", memo := none, value_amount_usd := -10,
    merchant_normalized := some "Starbucks", category := some "dining",
    location_inferred := some "Boston" }

/-- Witness: the amended C8 on a fully-populated transaction. -/
theorem C8_witness :
    enrich_transaction (enrich_transaction tFull) = enrich_transaction tFull
    ∧ (enrich_transaction tFull).merchant_normalized = tFull.merchant_normalized
    ∧ (enrich_transaction tFull).category = tFull.category
    ∧ (enrich_transaction tFull).location_inferred = tFull.location_inferred := by
  have h := C8_amended tFull
  exact ⟨h.1, h.2.1 (by decide), h.2.2.1 (by decide), h.2.2.2 (by decide)⟩

/-! ## C7 -/

/-- `List.find?` returns the element at the first index whose test
holds. -/
theorem find_first_of_minimal {α : Type} (l : List α) (p : α → Bool) :
    ∀ (i : Nat) (hi : i < l.length), p (l.get ⟨i, hi⟩) = true →
    (∀ j (hj : j < i), p (l.get ⟨j, Nat.lt_trans hj hi⟩) = false) →
    l.find? p = some (l.get ⟨i, hi⟩) := by
  induction l with
  | nil =>
    intro i hi
    exact absurd hi (Nat.not_lt_zero i)
  | cons a t ih =>
    intro i hi hp hmin
    cases i with
    | zero =>
      have hp' : p a = true := hp
      rw [List.find?_cons_of_pos _ hp']
      rfl
    | succ n =>
      have ha : p a = false := hmin 0 (Nat.succ_pos n)
      rw [List.find?_cons_of_neg _ (by simp [ha])]
      have hn : n < t.length := Nat.lt_of_succ_lt_succ hi
      exact ih n hn hp (fun j hj => hmin (j + 1) (Nat.succ_lt_succ hj))

/-- C7 is false as stated: the combined text of an empty description and
absent memo is the single space `" "` — non-empty and matching no
pattern — yet `normalize_merchant` returns nothing, not a capitalized
first token (there is no token). -/
theorem C7_counterexample :
    combined2 "" none ≠ [] ∧
    (∀ pr ∈ MERCHANT_PATTERNS, containsSub (combined2 "" none) pr.1.data = false) ∧
    normalize_merchant "" none = none := by
  refine ⟨by decide, by decide, by decide⟩

/-- C7 amended: when the combined text contains a declared pattern, the
first matching pattern in table declaration order wins; when no pattern
matches, the result is the first whitespace-delimited token capitalized
if one exists, and nothing when the combined text has no token (it is
empty or whitespace-only — in particular the code's combined text always
contains the separating space, so it is never the empty string). -/
theorem C7_amended (description : String) (memo : Option String) :
    (∀ i (hi : i < MERCHANT_PATTERNS.length),
       containsSub (combined2 description memo)
           ((MERCHANT_PATTERNS.get ⟨i, hi⟩).1.data) = true →
       (∀ j (hj : j < i),
          containsSub (combined2 description memo)
            ((MERCHANT_PATTERNS.get ⟨j, Nat.lt_trans hj hi⟩).1.data) = false) →
       normalize_merchant description memo
         = some (MERCHANT_PATTERNS.get ⟨i, hi⟩).2)
    ∧ ((∀ pr ∈ MERCHANT_PATTERNS,
          containsSub (combined2 description memo) pr.1.data = false) →
        (∀ w ws, splitWs (combined2 description memo) = w :: ws →
           normalize_merchant description memo
             = some (String.mk (pyCapitalize w)))
        ∧ (splitWs (combined2 description memo) = [] →
           normalize_merchant description memo = none)) := by
  constructor
  · intro i hi hp hmin
    unfold normalize_merchant
    rw [find_first_of_minimal MERCHANT_PATTERNS
      (fun pr => containsSub (combined2 description memo) pr.1.data) i hi hp hmin]
  · intro hnone
    have hfind : MERCHANT_PATTERNS.find?
        (fun pr => containsSub (combined2 description memo) pr.1.data) = none := by
      rw [List.find?_eq_none]
      intro x hx
      simp [hnone x hx]
    constructor
    · intro w ws hw
      unfold normalize_merchant
      rw [hfind, hw]
    · intro hw
      unfold normalize_merchant
      rw [hfind, hw]

/-- Witness: "SBUX COFFEE" contains both "sbux" (index 1) and "coffee"
(index 2); the earlier pattern wins, giving "Starbucks"; and an
unmatched text falls back to its first token capitalized. -/
theorem C7_witness :
    normalize_merchant "SBUX COFFEE" none = some "Starbucks" ∧
    normalize_merchant "zzq hello" none = some "Zzq" := by
  have hi1 : 1 < MERCHANT_PATTERNS.length := by decide
  have hp1 : containsSub (combined2 "SBUX COFFEE" none)
      ((MERCHANT_PATTERNS.get ⟨1, hi1⟩).1.data) = true :=
    (by decide : containsSub (combined2 "SBUX COFFEE" none)
      ((MERCHANT_PATTERNS.get ⟨1, by decide⟩).1.data) = true)
  have hmin1 : ∀ j (hj : j < 1),
      containsSub (combined2 "SBUX COFFEE" none)
        ((MERCHANT_PATTERNS.get ⟨j, Nat.lt_trans hj hi1⟩).1.data) = false := by
    intro j hj
    have hj0 : j = 0 := Nat.lt_one_iff.mp hj
    subst hj0
    exact (by decide : containsSub (combined2 "SBUX COFFEE" none)
      ((MERCHANT_PATTERNS.get ⟨0, by decide⟩).1.data) = false)
  have h1 := (C7_amended "SBUX COFFEE" none).1 1 hi1 hp1 hmin1
  have h2 := ((C7_amended "zzq hello" none).2 (by decide)).1
    "zzq".data ["hello".data ++ []] (by decide)
  exact ⟨h1, h2⟩

/-! ## C10 -/

/-- C10 (implicit): for a non-global reward with `geo_city` absent, the
geo check in `should_send_notification` cannot reject when the user's
geo is known (`experience.geo_city and ...` short-circuits to a falsy
value), so with both notification toggles enabled and the current time
inside the validity window the decision is `true`. -/
theorem C10_theorem (now : Int) (user : User) (prefs : PrefsDict)
    (exp : Reward)
    (h1 : prefs.priceless_notifications_enabled.getD true = true)
    (h2 : prefs.notifications_enabled.getD true = true)
    (hgeo : truthyStr
      (pyOrStr prefs.priceless_geo_location user.primary_geo_location) = true)
    (_hscope : exp.geo_scope ≠ "global")
    (hcity : exp.geo_city = none)
    (hstart : exp.start_date ≤ now)
    (hend : ∀ e, exp.end_date = some e → now ≤ e) :
    should_send_notification now user prefs exp = true := by
  simp only [should_send_notification]
  rw [h1, h2, hcity, hgeo]
  have hns : decide (now < exp.start_date) = false :=
    decide_eq_false (not_lt.mpr hstart)
  have hne : (match exp.end_date with
      | some e => decide (e < now)
      | none => false) = false := by
    cases he : exp.end_date with
    | none => rfl
    | some e => exact decide_eq_false (not_lt.mpr (hend e he))
  rw [hns]
  simp only [truthyStr, Bool.not_true, Bool.and_false, Bool.or_false,
    Bool.false_or, Bool.false_and, Bool.and_true]
  rw [hne]
  simp

/-- An experience reward valid on [0, 10], city-scoped with no city on
record. -/
def expNoCity : Reward :=
  { id := 10, merchant_name := "M", reward_type := "experience",
    start_date := 0, end_date := some 10, geo_scope := "city",
    geo_city := none }

/-- A user located in New York. -/
def uNYC : User := { primary_geo_location := some "NYC" }

/-- An empty preferences dict (all lookups fall back to defaults). -/
def prefsEmpty : PrefsDict := {}

/-- Witness: C10 at time 5 for the [0, 10] city-scoped reward with no
city. -/
theorem C10_witness :
    should_send_notification 5 uNYC prefsEmpty expNoCity = true :=
  C10_theorem 5 uNYC prefsEmpty expNoCity rfl rfl (by decide) (by decide) rfl
    (by decide)
    (fun e he => by
      have h10 : e = 10 := (Option.some.inj he).symm
      subst h10
      decide)
